import Mathlib

/-!
Formal model of an NES emulator core, shallowly embedded from the Go
sources (console.go, memory.go, cpu.go, and the PPU register file).
Machine integers are modelled as Nat with explicit reduction modulo
2^8 or 2^16 at the points where the Go code relies on fixed-width
overflow.  Byte arrays are modelled as total functions Nat → Nat.
The mapper model covers variants 2 (NROM/UxROM) and 4 (MMC3), the two
variants exercised by the verified properties; the remaining variants
never appear in the statements below.
-/

namespace NES

/-- Reduce to an unsigned 8-bit value, as Go byte arithmetic does. -/
def u8 (n : Nat) : Nat := n % 256

/-- Reduce to an unsigned 16-bit value, as Go uint16 arithmetic does. -/
def u16 (n : Nat) : Nat := n % 65536

/-- 8-bit subtraction with wraparound (Go byte subtraction). -/
def sub8 (a b : Nat) : Nat := (a + (256 - b % 256)) % 256

/-- 16-bit subtraction with wraparound (Go uint16 subtraction). -/
def sub16 (a b : Nat) : Nat := (a + (65536 - b % 65536)) % 65536

/-- Pointwise update of a byte-array model, written back at one index. -/
def updf (f : Nat → Nat) (i v : Nat) : Nat → Nat :=
  fun j => if j = i then v else f j

/-- Pending-interrupt latch of the CPU (interruptNone / NMI / IRQ). -/
inductive Interrupt where
  | none
  | nmi
  | irq
deriving DecidableEq

/-- CPU state: registers, flags, pending interrupt and stall counter
(struct CPU in nes_types.go, without the memory interface and the
function table). -/
structure CPU where
  Cycles : Nat
  PC : Nat
  SP : Nat
  A : Nat
  X : Nat
  Y : Nat
  C : Nat
  Z : Nat
  I : Nat
  D : Nat
  B : Nat
  U : Nat
  V : Nat
  N : Nat
  interrupt : Interrupt
  stall : Nat

/-- Pulse channel state (struct Pulse in nes_types.go). -/
structure Pulse where
  enabled : Bool
  channel : Nat
  lengthEnabled : Bool
  lengthValue : Nat
  timerPeriod : Nat
  timerValue : Nat
  dutyMode : Nat
  dutyValue : Nat
  sweepReload : Bool
  sweepEnabled : Bool
  sweepNegate : Bool
  sweepShift : Nat
  sweepPeriod : Nat
  sweepValue : Nat
  envelopeEnabled : Bool
  envelopeLoop : Bool
  envelopeStart : Bool
  envelopePeriod : Nat
  envelopeValue : Nat
  envelopeVolume : Nat
  constantVolume : Nat

/-- Triangle channel state (struct Triangle in nes_types.go). -/
structure Triangle where
  enabled : Bool
  lengthEnabled : Bool
  lengthValue : Nat
  timerPeriod : Nat
  timerValue : Nat
  dutyValue : Nat
  counterPeriod : Nat
  counterValue : Nat
  counterReload : Bool

/-- Noise channel state (struct Noise in nes_types.go). -/
structure Noise where
  enabled : Bool
  mode : Bool
  shiftRegister : Nat
  lengthEnabled : Bool
  lengthValue : Nat
  timerPeriod : Nat
  timerValue : Nat
  envelopeEnabled : Bool
  envelopeLoop : Bool
  envelopeStart : Bool
  envelopePeriod : Nat
  envelopeValue : Nat
  envelopeVolume : Nat
  constantVolume : Nat

/-- DMC channel state (struct DMC in nes_types.go, without the CPU
back-pointer). -/
structure DMC where
  enabled : Bool
  value : Nat
  sampleAddress : Nat
  sampleLength : Nat
  currentAddress : Nat
  currentLength : Nat
  shiftRegister : Nat
  bitCount : Nat
  tickPeriod : Nat
  tickValue : Nat
  loop : Bool
  irq : Bool

/-- APU state (struct APU in nes_types.go, without the output channel). -/
structure APU where
  pulse1 : Pulse
  pulse2 : Pulse
  triangle : Triangle
  noise : Noise
  dmc : DMC
  cycle : Nat
  framePeriod : Nat
  frameValue : Nat
  frameIRQ : Bool

/-- Controller shift register (struct Controller in nes_types.go).
Button order is A, B, Select, Start, Up, Down, Left, Right. -/
structure Controller where
  buttons : Nat → Bool
  index : Nat
  strobe : Nat

/-- Cartridge data (struct Cartridge in nes_types.go); prgLen and
chrLen stand for the Go slice lengths. -/
structure Cartridge where
  PRG : Nat → Nat
  prgLen : Nat
  CHR : Nat → Nat
  chrLen : Nat
  SRAM : Nat → Nat
  Mirror : Nat

/-- Mapper 2 (NROM/UxROM) bank state (struct Mapper2 in nes_types.go,
cartridge held separately). -/
structure Mapper2 where
  prgBanks : Nat
  prgBank1 : Nat
  prgBank2 : Nat

/-- Mapper 4 (MMC3) register file and scanline-IRQ state (struct
Mapper4 in nes_types.go, cartridge held separately; bank offsets are
Go ints). -/
structure Mapper4 where
  register : Nat
  registers : Nat → Nat
  prgMode : Nat
  chrMode : Nat
  prgOffsets : Nat → Int
  chrOffsets : Nat → Int
  reload : Nat
  counter : Nat
  irqEnable : Bool

/-- The mapper variants covered by this model. -/
inductive Mapper where
  | mapper2 (m : Mapper2)
  | mapper4 (m : Mapper4)

/-- PPU state (struct PPU in nes_types.go).  The framebuffers and the
background/sprite fetch scratch registers are omitted: they are only
touched by the dot-stepping renderer, which is outside the embedded
register interface. -/
structure PPU where
  Cycle : Nat
  ScanLine : Nat
  Frame : Nat
  paletteData : Nat → Nat
  nameTableData : Nat → Nat
  oamData : Nat → Nat
  v : Nat
  t : Nat
  x : Nat
  w : Nat
  f : Nat
  register : Nat
  nmiOccurred : Bool
  nmiOutput : Bool
  nmiPrevious : Bool
  nmiDelay : Nat
  flagNameTable : Nat
  flagIncrement : Nat
  flagSpriteTable : Nat
  flagBackgroundTable : Nat
  flagSpriteSize : Nat
  flagMasterSlave : Nat
  flagGrayscale : Nat
  flagShowLeftBackground : Nat
  flagShowLeftSprites : Nat
  flagShowBackground : Nat
  flagShowSprites : Nat
  flagRedTint : Nat
  flagGreenTint : Nat
  flagBlueTint : Nat
  flagSpriteZeroHit : Nat
  flagSpriteOverflow : Nat
  oamAddress : Nat
  bufferedData : Nat

/-- Console: the top-level owner (struct Console in nes_types.go). -/
structure Console where
  cpu : CPU
  apu : APU
  ppu : PPU
  cartridge : Cartridge
  controller1 : Controller
  controller2 : Controller
  mapper : Mapper
  RAM : Nat → Nat

/-- Length-counter load table (lengthTable in nes_types.go). -/
def lengthTable : List Nat :=
  [10, 254, 20, 2, 40, 4, 80, 6, 160, 8, 60, 10, 14, 12, 26, 14,
   12, 16, 24, 18, 48, 20, 96, 22, 192, 24, 72, 26, 16, 28, 32, 30]

/-- Noise timer period table (noiseTable in nes_types.go). -/
def noiseTable : List Nat :=
  [4, 8, 16, 32, 64, 96, 128, 160, 202, 254, 380, 508, 762, 1016, 2034, 4068]

/-- DMC tick period table (dmcTable in nes_types.go). -/
def dmcTable : List Nat :=
  [214, 190, 170, 160, 143, 127, 113, 107, 95, 80, 71, 64, 53, 42, 36, 27]

/-- Nametable mirroring lookup (MirrorLookup in nes_types.go). -/
def MirrorLookup (mode table : Nat) : Nat :=
  (([[0, 0, 1, 1], [0, 1, 0, 1], [0, 0, 0, 0],
     [1, 1, 1, 1], [0, 1, 2, 3]] : List (List Nat)).getD mode []).getD table 0

def MirrorHorizontal : Nat := 0
def MirrorVertical : Nat := 1
def MirrorSingle0 : Nat := 2
def MirrorSingle1 : Nat := 3

/-- Serial controller read (readController closure in memory.go). -/
def readController (c : Controller) : Nat × Controller :=
  let value := if c.index < 8 ∧ c.buttons c.index then 1 else 0
  let c1 : Controller := { c with index := (c.index + 1) % 256 }
  let c2 := if c1.strobe &&& 1 = 1 then { c1 with index := 0 } else c1
  (value, c2)

/-- Controller strobe write (writeController closure in memory.go). -/
def writeController (c : Controller) (value : Nat) : Controller :=
  let c1 : Controller := { c with strobe := value }
  if c1.strobe &&& 1 = 1 then { c1 with index := 0 } else c1

/-- Mapper read dispatch (readMapper in memory.go), for the covered
variants.  Bank offsets of mapper 4 are non-negative on reachable
states; toNat realises the Go int index. -/
def readMapper (mapper : Mapper) (cartridge : Cartridge) (address : Nat) : Nat :=
  match mapper with
  | .mapper2 m =>
    if address < 0x2000 then cartridge.CHR address
    else if 0xC000 ≤ address then
      cartridge.PRG (m.prgBank2 * 0x4000 + (address - 0xC000))
    else if 0x8000 ≤ address then
      cartridge.PRG (m.prgBank1 * 0x4000 + (address - 0x8000))
    else if 0x6000 ≤ address then cartridge.SRAM (address - 0x6000)
    else 0
  | .mapper4 m =>
    if address < 0x2000 then
      let bank := address / 0x0400
      let offset := address % 0x0400
      cartridge.CHR ((m.chrOffsets bank).toNat + offset)
    else if 0x8000 ≤ address then
      let a1 := address - 0x8000
      let bank := a1 / 0x2000
      let offset := a1 % 0x2000
      cartridge.PRG ((m.prgOffsets bank).toNat + offset)
    else if 0x6000 ≤ address then cartridge.SRAM (address - 0x6000)
    else 0

/-- PRG bank index to byte offset for mapper 4 (prgBankOffset4 in
memory.go); Go int division and truncated remainder. -/
def prgBankOffset4 (cartridge : Cartridge) (index : Int) : Int :=
  let i1 := if 0x80 ≤ index then index - 0x100 else index
  let i2 := i1.tmod ((cartridge.prgLen / 0x2000 : Nat) : Int)
  let offset := i2 * 0x2000
  if offset < 0 then offset + cartridge.prgLen else offset

/-- CHR bank index to byte offset for mapper 4 (chrBankOffset4 in
memory.go). -/
def chrBankOffset4 (cartridge : Cartridge) (index : Int) : Int :=
  let i1 := if 0x80 ≤ index then index - 0x100 else index
  let i2 := i1.tmod ((cartridge.chrLen / 0x0400 : Nat) : Int)
  let offset := i2 * 0x0400
  if offset < 0 then offset + cartridge.chrLen else offset

/-- Re-derive mapper 4 bank offset tables (updateOffsets4 in
memory.go). -/
def updateOffsets4 (cartridge : Cartridge) (m : Mapper4) : Mapper4 :=
  let m1 :=
    if m.prgMode = 0 then
      { m with prgOffsets := fun i =>
          if i = 0 then prgBankOffset4 cartridge (m.registers 6)
          else if i = 1 then prgBankOffset4 cartridge (m.registers 7)
          else if i = 2 then prgBankOffset4 cartridge (-2)
          else prgBankOffset4 cartridge (-1) }
    else if m.prgMode = 1 then
      { m with prgOffsets := fun i =>
          if i = 0 then prgBankOffset4 cartridge (-2)
          else if i = 1 then prgBankOffset4 cartridge (m.registers 7)
          else if i = 2 then prgBankOffset4 cartridge (m.registers 6)
          else prgBankOffset4 cartridge (-1) }
    else m
  if m1.chrMode = 0 then
    { m1 with chrOffsets := fun i =>
        if i = 0 then chrBankOffset4 cartridge ((m.registers 0 &&& 0xFE : Nat) : Int)
        else if i = 1 then chrBankOffset4 cartridge ((m.registers 0 ||| 0x01 : Nat) : Int)
        else if i = 2 then chrBankOffset4 cartridge ((m.registers 1 &&& 0xFE : Nat) : Int)
        else if i = 3 then chrBankOffset4 cartridge ((m.registers 1 ||| 0x01 : Nat) : Int)
        else if i = 4 then chrBankOffset4 cartridge (m.registers 2)
        else if i = 5 then chrBankOffset4 cartridge (m.registers 3)
        else if i = 6 then chrBankOffset4 cartridge (m.registers 4)
        else chrBankOffset4 cartridge (m.registers 5) }
  else if m1.chrMode = 1 then
    { m1 with chrOffsets := fun i =>
        if i = 0 then chrBankOffset4 cartridge (m.registers 2)
        else if i = 1 then chrBankOffset4 cartridge (m.registers 3)
        else if i = 2 then chrBankOffset4 cartridge (m.registers 4)
        else if i = 3 then chrBankOffset4 cartridge (m.registers 5)
        else if i = 4 then chrBankOffset4 cartridge ((m.registers 0 &&& 0xFE : Nat) : Int)
        else if i = 5 then chrBankOffset4 cartridge ((m.registers 0 ||| 0x01 : Nat) : Int)
        else if i = 6 then chrBankOffset4 cartridge ((m.registers 1 &&& 0xFE : Nat) : Int)
        else chrBankOffset4 cartridge ((m.registers 1 ||| 0x01 : Nat) : Int) }
  else m1

/-- Mapper 4 register write dispatch by address and parity (the
address ≥ 0x8000 arm of writeMapper in memory.go). -/
def mapper4WriteRegister (m : Mapper4) (cartridge : Cartridge)
    (address value : Nat) : Mapper × Cartridge :=
  if address ≤ 0x9FFF ∧ address % 2 = 0 then
    let m1 := { m with prgMode := (value >>> 6) &&& 1,
                       chrMode := (value >>> 7) &&& 1,
                       register := value &&& 7 }
    (.mapper4 (updateOffsets4 cartridge m1), cartridge)
  else if address ≤ 0x9FFF ∧ address % 2 = 1 then
    let m1 := { m with registers := updf m.registers m.register value }
    (.mapper4 (updateOffsets4 cartridge m1), cartridge)
  else if address ≤ 0xBFFF ∧ address % 2 = 0 then
    (.mapper4 m, { cartridge with Mirror :=
        if value &&& 1 = 0 then MirrorVertical else MirrorHorizontal })
  else if address ≤ 0xBFFF ∧ address % 2 = 1 then (.mapper4 m, cartridge)
  else if address ≤ 0xDFFF ∧ address % 2 = 0 then
    (.mapper4 { m with reload := value }, cartridge)
  else if address ≤ 0xDFFF ∧ address % 2 = 1 then
    (.mapper4 { m with counter := 0 }, cartridge)
  else if address % 2 = 0 then
    (.mapper4 { m with irqEnable := false }, cartridge)
  else (.mapper4 { m with irqEnable := true }, cartridge)

/-- Mapper write dispatch (writeMapper in memory.go), for the covered
variants. -/
def writeMapper (mapper : Mapper) (cartridge : Cartridge)
    (address value : Nat) : Mapper × Cartridge :=
  match mapper with
  | .mapper2 m =>
    if address < 0x2000 then
      (mapper, { cartridge with CHR := updf cartridge.CHR address value })
    else if 0x8000 ≤ address then
      (.mapper2 { m with prgBank1 := value % m.prgBanks }, cartridge)
    else if 0x6000 ≤ address then
      (mapper, { cartridge with SRAM := updf cartridge.SRAM (address - 0x6000) value })
    else (mapper, cartridge)
  | .mapper4 m =>
    if address < 0x2000 then
      let bank := address / 0x0400
      let offset := address % 0x0400
      let chr1 := updf cartridge.CHR ((m.chrOffsets bank).toNat + offset) value
      (mapper, { cartridge with CHR := chr1 })
    else if 0x8000 ≤ address then mapper4WriteRegister m cartridge address value
    else if 0x6000 ≤ address then
      (mapper, { cartridge with SRAM := updf cartridge.SRAM (address - 0x6000) value })
    else (mapper, cartridge)

/-- Palette read with the 0x10/0x14/0x18/0x1C aliasing (readPalette in
the PPU register file); address is already reduced modulo 32 by the
caller. -/
def readPalette (ppu : PPU) (address : Nat) : Nat :=
  let a1 := if 16 ≤ address ∧ address % 4 = 0 then address - 16 else address
  ppu.paletteData a1

/-- Nametable address translation through the mirroring table
(mirrorAddress in the PPU register file). -/
def mirrorAddress (mode address : Nat) : Nat :=
  let a1 := sub16 address 0x2000 % 0x1000
  let table := a1 / 0x0400
  let offset := a1 % 0x0400
  0x2000 + MirrorLookup mode table * 0x0400 + offset

/-- NMI edge detector (nmiChangePPU): arm a 15-cycle delay when the
NMI line rises. -/
def nmiChangePPU (ppu : PPU) : PPU :=
  let nmi := ppu.nmiOutput && ppu.nmiOccurred
  let ppu1 := if nmi && !ppu.nmiPrevious then { ppu with nmiDelay := 15 } else ppu
  { ppu1 with nmiPrevious := nmi }

/-- PPUCTRL write (writeControlPPU in the PPU register file). -/
def writeControlPPU (ppu : PPU) (value : Nat) : PPU :=
  let ppu1 := { ppu with
    flagNameTable := (value >>> 0) &&& 3,
    flagIncrement := (value >>> 2) &&& 1,
    flagSpriteTable := (value >>> 3) &&& 1,
    flagBackgroundTable := (value >>> 4) &&& 1,
    flagSpriteSize := (value >>> 5) &&& 1,
    flagMasterSlave := (value >>> 6) &&& 1,
    nmiOutput := (value >>> 7) &&& 1 = 1 }
  let ppu2 := nmiChangePPU ppu1
  { ppu2 with t := (ppu2.t &&& 0xF3FF) ||| ((value &&& 0x03) <<< 10) }

/-- PPUMASK write (writeMaskPPU in the PPU register file). -/
def writeMaskPPU (ppu : PPU) (value : Nat) : PPU :=
  { ppu with
    flagGrayscale := (value >>> 0) &&& 1,
    flagShowLeftBackground := (value >>> 1) &&& 1,
    flagShowLeftSprites := (value >>> 2) &&& 1,
    flagShowBackground := (value >>> 3) &&& 1,
    flagShowSprites := (value >>> 4) &&& 1,
    flagRedTint := (value >>> 5) &&& 1,
    flagGreenTint := (value >>> 6) &&& 1,
    flagBlueTint := (value >>> 7) &&& 1 }

/-- The VRAM address increment shared by the PPUDATA read and write
paths: add 1 or 32 to v depending on the increment flag. -/
def incrementV (ppu : PPU) : PPU :=
  if ppu.flagIncrement = 0 then { ppu with v := u16 (ppu.v + 1) }
  else { ppu with v := u16 (ppu.v + 32) }

/-- PPU-bus read (readPPU in the PPU register file): pattern tables via
the mapper, nametables via mirroring, palette RAM on top. -/
def readPPU (console : Console) (address : Nat) : Nat :=
  let a1 := address % 0x4000
  if a1 < 0x2000 then readMapper console.mapper console.cartridge a1
  else if a1 < 0x3F00 then
    console.ppu.nameTableData (mirrorAddress console.cartridge.Mirror a1 % 2048)
  else readPalette console.ppu (a1 % 32)

/-- PPU-bus write (writePPU in the PPU register file). -/
def writePPU (console : Console) (address value : Nat) : Console :=
  let a1 := address % 0x4000
  if a1 < 0x2000 then
    let r := writeMapper console.mapper console.cartridge a1 value
    { console with mapper := r.1, cartridge := r.2 }
  else if a1 < 0x3F00 then
    let nt1 := updf console.ppu.nameTableData (mirrorAddress console.cartridge.Mirror a1 % 2048) value
    { console with ppu := { console.ppu with nameTableData := nt1 } }
  else
    let a2 := a1 % 32
    let a3 := if 16 ≤ a2 ∧ a2 % 4 = 0 then a2 - 16 else a2
    { console with ppu := { console.ppu with paletteData := updf console.ppu.paletteData a3 value } }

/-- PPU register read (readPPURegister in the PPU register file):
PPUSTATUS, OAMDATA and the buffered PPUDATA read; other registers
return 0. -/
def readPPURegister (console : Console) (address : Nat) : Nat × Console :=
  let ppu := console.ppu
  if address = 0x2002 then
    let s1 := ppu.register &&& 0x1F
    let s2 := s1 ||| (ppu.flagSpriteOverflow <<< 5)
    let s3 := s2 ||| (ppu.flagSpriteZeroHit <<< 6)
    let status := if ppu.nmiOccurred then s3 ||| (1 <<< 7) else s3
    let ppu1 := nmiChangePPU { ppu with nmiOccurred := false }
    (status, { console with ppu := { ppu1 with w := 0 } })
  else if address = 0x2004 then (ppu.oamData ppu.oamAddress, console)
  else if address = 0x2007 then
    let value := readPPU console ppu.v
    if ppu.v % 0x4000 < 0x3F00 then
      let buffered := ppu.bufferedData
      let ppu1 := { ppu with bufferedData := value }
      (buffered, { console with ppu := incrementV ppu1 })
    else
      let ppu1 := { ppu with bufferedData := readPPU console (sub16 ppu.v 0x1000) }
      (value, { console with ppu := incrementV ppu1 })
  else (0, console)

/-- APU status read, the 0x4015 arm of ReadByte in memory.go: one bit
per channel whose length counter is still positive. -/
def apuReadStatus (apu : APU) : Nat :=
  let s1 := if apu.pulse1.lengthValue > 0 then 1 else 0
  let s2 := if apu.pulse2.lengthValue > 0 then s1 ||| 2 else s1
  let s3 := if apu.triangle.lengthValue > 0 then s2 ||| 4 else s2
  let s4 := if apu.noise.lengthValue > 0 then s3 ||| 8 else s3
  if apu.dmc.currentLength > 0 then s4 ||| 16 else s4

/-- CPU bus read (ReadByte in memory.go).  Returns the byte read and
the console after the read's side effects (PPU status reads and
controller reads mutate state). -/
def readByte (console : Console) (address : Nat) : Nat × Console :=
  if address < 0x2000 then (console.RAM (address % 0x0800), console)
  else if address < 0x4000 then readPPURegister console (0x2000 + address % 8)
  else if address = 0x4014 then readPPURegister console address
  else if address = 0x4015 then (apuReadStatus console.apu, console)
  else if address = 0x4016 then
    let r := readController console.controller1
    (r.1, { console with controller1 := r.2 })
  else if address = 0x4017 then
    let r := readController console.controller2
    (r.1, { console with controller2 := r.2 })
  else if address < 0x6000 then (0, console)
  else (readMapper console.mapper console.cartridge address, console)

/-- Pulse control write at 0x4000/0x4004 (pulseWriteControl closure in
memory.go). -/
def pulseWriteControl (p : Pulse) (value : Nat) : Pulse :=
  { p with
    dutyMode := (value >>> 6) &&& 3,
    lengthEnabled := (value >>> 5) &&& 1 == 0,
    envelopeLoop := (value >>> 5) &&& 1 == 1,
    envelopeEnabled := (value >>> 4) &&& 1 == 0,
    envelopePeriod := value &&& 15,
    constantVolume := value &&& 15,
    envelopeStart := true }

/-- Pulse sweep-register write at 0x4001/0x4005 (pulseWriteSweep
closure in memory.go). -/
def pulseWriteSweep (p : Pulse) (value : Nat) : Pulse :=
  { p with
    sweepEnabled := (value >>> 7) &&& 1 == 1,
    sweepPeriod := (value >>> 4) &&& 7,
    sweepNegate := (value >>> 3) &&& 1 == 1,
    sweepShift := value &&& 7,
    sweepReload := true }

/-- Pulse timer-high/length write at 0x4003/0x4007 (pulseWriteTimerHigh
closure in memory.go).  Note that the length counter is loaded without
consulting the enabled flag. -/
def pulseWriteTimerHigh (p : Pulse) (value : Nat) : Pulse :=
  { p with
    lengthValue := lengthTable.getD (value >>> 3) 0,
    timerPeriod := (p.timerPeriod &&& 0x00FF) ||| ((value &&& 7) <<< 8),
    envelopeStart := true,
    dutyValue := 0 }

/-- DMC sample restart (dmcRestart in console.go). -/
def dmcRestart (d : DMC) : DMC :=
  { d with currentAddress := d.sampleAddress, currentLength := d.sampleLength }

/-- APU register write dispatch (writeRegisterAPU closure in
memory.go). -/
def writeRegisterAPU (apu : APU) (address value : Nat) : APU :=
  if address = 0x4000 then { apu with pulse1 := pulseWriteControl apu.pulse1 value }
  else if address = 0x4001 then { apu with pulse1 := pulseWriteSweep apu.pulse1 value }
  else if address = 0x4002 then
    { apu with pulse1 := { apu.pulse1 with timerPeriod := (apu.pulse1.timerPeriod &&& 0xFF00) ||| u8 value } }
  else if address = 0x4003 then { apu with pulse1 := pulseWriteTimerHigh apu.pulse1 value }
  else if address = 0x4004 then { apu with pulse2 := pulseWriteControl apu.pulse2 value }
  else if address = 0x4005 then { apu with pulse2 := pulseWriteSweep apu.pulse2 value }
  else if address = 0x4006 then
    { apu with pulse2 := { apu.pulse2 with timerPeriod := (apu.pulse2.timerPeriod &&& 0xFF00) ||| u8 value } }
  else if address = 0x4007 then { apu with pulse2 := pulseWriteTimerHigh apu.pulse2 value }
  else if address = 0x4008 then
    { apu with triangle := { apu.triangle with
        lengthEnabled := (value >>> 7) &&& 1 == 0,
        counterPeriod := value &&& 0x7F } }
  else if address = 0x4010 then
    { apu with dmc := { apu.dmc with
        irq := value &&& 0x80 == 0x80,
        loop := value &&& 0x40 == 0x40,
        tickPeriod := dmcTable.getD (value &&& 0x0F) 0 } }
  else if address = 0x4011 then
    { apu with dmc := { apu.dmc with value := value &&& 0x7F } }
  else if address = 0x4012 then
    { apu with dmc := { apu.dmc with sampleAddress := 0xC000 ||| (u8 value <<< 6) } }
  else if address = 0x4013 then
    { apu with dmc := { apu.dmc with sampleLength := (u8 value <<< 4) ||| 1 } }
  else if address = 0x400A then
    { apu with triangle := { apu.triangle with timerPeriod := (apu.triangle.timerPeriod &&& 0xFF00) ||| u8 value } }
  else if address = 0x400B then
    let tp := (apu.triangle.timerPeriod &&& 0x00FF) ||| ((value &&& 7) <<< 8)
    { apu with triangle := { apu.triangle with
        lengthValue := lengthTable.getD (value >>> 3) 0,
        timerPeriod := tp,
        timerValue := tp,
        counterReload := true } }
  else if address = 0x400C then
    { apu with noise := { apu.noise with
        lengthEnabled := (value >>> 5) &&& 1 == 0,
        envelopeLoop := (value >>> 5) &&& 1 == 1,
        envelopeEnabled := (value >>> 4) &&& 1 == 0,
        envelopePeriod := value &&& 15,
        constantVolume := value &&& 15,
        envelopeStart := true } }
  else if address = 0x400E then
    { apu with noise := { apu.noise with
        mode := value &&& 0x80 == 0x80,
        timerPeriod := noiseTable.getD (value &&& 0x0F) 0 } }
  else if address = 0x400F then
    { apu with noise := { apu.noise with
        lengthValue := lengthTable.getD (value >>> 3) 0,
        envelopeStart := true } }
  else if address = 0x4015 then
    let p1 := { apu.pulse1 with enabled := value &&& 1 == 1 }
    let p2 := { apu.pulse2 with enabled := value &&& 2 == 2 }
    let tr := { apu.triangle with enabled := value &&& 4 == 4 }
    let no := { apu.noise with enabled := value &&& 8 == 8 }
    let dm := { apu.dmc with enabled := value &&& 16 == 16 }
    let p1 := if p1.enabled then p1 else { p1 with lengthValue := 0 }
    let p2 := if p2.enabled then p2 else { p2 with lengthValue := 0 }
    let tr := if tr.enabled then tr else { tr with lengthValue := 0 }
    let no := if no.enabled then no else { no with lengthValue := 0 }
    let dm :=
      if dm.enabled then (if dm.currentLength = 0 then dmcRestart dm else dm)
      else { dm with currentLength := 0 }
    { apu with pulse1 := p1, pulse2 := p2, triangle := tr, noise := no, dmc := dm }
  else if address = 0x4017 then
    { apu with
      framePeriod := 4 + ((value >>> 7) &&& 1),
      frameIRQ := (value >>> 6) &&& 1 == 0 }
  else apu

/-- One iteration of the OAM DMA copy loop, from the 0x4014 arm of
writeRegisterPPU: read the CPU bus (threading the read's side
effects), store the byte at the current OAM address, increment the OAM
address as a byte. -/
def dmaStep (console : Console) (address : Nat) : Console :=
  let r := readByte console address
  let c1 := r.2
  { c1 with ppu := { c1.ppu with
      oamData := updf c1.ppu.oamData (c1.ppu.oamAddress % 256) r.1,
      oamAddress := (c1.ppu.oamAddress + 1) % 256 } }

def dmaLoop : Nat → Console → Nat → Console
  | 0, console, _ => console
  | n + 1, console, address => dmaLoop n (dmaStep console address) (u16 (address + 1))

/-- PPU register write dispatch (writeRegisterPPU in the PPU register
file), including the 0x4014 OAM DMA with its 513/514-cycle stall. -/
def writeRegisterPPU (console : Console) (address value : Nat) : Console :=
  let console := { console with ppu := { console.ppu with register := value } }
  let ppu := console.ppu
  if address = 0x2000 then { console with ppu := writeControlPPU ppu value }
  else if address = 0x2001 then { console with ppu := writeMaskPPU ppu value }
  else if address = 0x2003 then { console with ppu := { ppu with oamAddress := value } }
  else if address = 0x2004 then
    { console with ppu := { ppu with
        oamData := updf ppu.oamData ppu.oamAddress value,
        oamAddress := (ppu.oamAddress + 1) % 256 } }
  else if address = 0x2005 then
    if ppu.w = 0 then
      { console with ppu := { ppu with
          t := (ppu.t &&& 0xFFE0) ||| (value >>> 3),
          x := value &&& 0x07,
          w := 1 } }
    else
      let t1 := (ppu.t &&& 0x8FFF) ||| ((value &&& 0x07) <<< 12)
      { console with ppu := { ppu with
          t := (t1 &&& 0xFC1F) ||| ((value &&& 0xF8) <<< 2),
          w := 0 } }
  else if address = 0x2006 then
    if ppu.w = 0 then
      { console with ppu := { ppu with
          t := (ppu.t &&& 0x80FF) ||| ((value &&& 0x3F) <<< 8),
          w := 1 } }
    else
      let t1 := (ppu.t &&& 0xFF00) ||| u8 value
      { console with ppu := { ppu with t := t1, v := t1, w := 0 } }
  else if address = 0x2007 then
    let c1 := writePPU console ppu.v value
    { c1 with ppu := incrementV c1.ppu }
  else if address = 0x4014 then
    let c1 := dmaLoop 256 console (u16 (value <<< 8))
    let stall1 := c1.cpu.stall + 513
    let stall2 := if c1.cpu.Cycles % 2 = 1 then stall1 + 1 else stall1
    { c1 with cpu := { c1.cpu with stall := stall2 } }
  else console

/-- CPU bus write (WriteByte in memory.go). -/
def writeByte (console : Console) (address value : Nat) : Console :=
  if address < 0x2000 then
    { console with RAM := updf console.RAM (address % 0x0800) value }
  else if address < 0x4000 then writeRegisterPPU console (0x2000 + address % 8) value
  else if address < 0x4014 then { console with apu := writeRegisterAPU console.apu address value }
  else if address = 0x4014 then writeRegisterPPU console address value
  else if address = 0x4015 then { console with apu := writeRegisterAPU console.apu address value }
  else if address = 0x4016 then
    { console with
      controller1 := writeController console.controller1 value,
      controller2 := writeController console.controller2 value }
  else if address = 0x4017 then { console with apu := writeRegisterAPU console.apu address value }
  else if address < 0x6000 then console
  else
    let r := writeMapper console.mapper console.cartridge address value
    { console with mapper := r.1, cartridge := r.2 }

/-- Stack push (push in cpu.go): write at 0x0100 | SP, post-decrement
SP as a byte. -/
def push (console : Console) (value : Nat) : Console :=
  let c1 := writeByte console (0x100 ||| console.cpu.SP) value
  { c1 with cpu := { c1.cpu with SP := sub8 c1.cpu.SP 1 } }

/-- 16-bit stack push, high byte first (push16 in cpu.go). -/
def push16 (console : Console) (value : Nat) : Console :=
  let hi := u8 (value >>> 8)
  let lo := value &&& 0xFF
  push (push console hi) lo

/-- The status byte assembled by php (cpu.go): flags packed C..N from
bit 0 to bit 7. -/
def cpuStatusByte (cpu : CPU) : Nat :=
  cpu.C ||| (cpu.Z <<< 1) ||| (cpu.I <<< 2) ||| (cpu.D <<< 3) |||
  (cpu.B <<< 4) ||| (cpu.U <<< 5) ||| (cpu.V <<< 6) ||| (cpu.N <<< 7)

/-- PHP (php in cpu.go): push the status byte ORed with 0x10, so the
pushed byte always carries the B bit. -/
def php (console : Console) : Console :=
  push console (cpuStatusByte console.cpu ||| 0x10)

/-- Little-endian 16-bit CPU bus read (read16 in cpu.go), threading
the side effects of both byte reads. -/
def read16 (console : Console) (address : Nat) : Nat × Console :=
  let lo := readByte console address
  let hi := readByte lo.2 (u16 (address + 1))
  ((hi.1 <<< 8) ||| lo.1, hi.2)

/-- Interrupt servicing at the top of a CPU step (the interrupt switch
in StepSeconds, console.go): push PC, push the flags via php, load PC
from the vector, set I, add 7 cycles, then clear the pending
interrupt. -/
def serviceInterrupt (console : Console) : Console :=
  let c1 :=
    match console.cpu.interrupt with
    | Interrupt.nmi =>
      let c2 := push16 console console.cpu.PC
      let c3 := php c2
      let r := read16 c3 0xFFFA
      { r.2 with cpu := { r.2.cpu with PC := r.1, I := 1, Cycles := r.2.cpu.Cycles + 7 } }
    | Interrupt.irq =>
      let c2 := push16 console console.cpu.PC
      let c3 := php c2
      let r := read16 c3 0xFFFE
      { r.2 with cpu := { r.2.cpu with PC := r.1, I := 1, Cycles := r.2.cpu.Cycles + 7 } }
    | Interrupt.none => console
  { c1 with cpu := { c1.cpu with interrupt := Interrupt.none } }

/-- IRQ request (triggerIRQ in console.go): latch a pending IRQ only
when the I flag is clear. -/
def triggerIRQ (cpu : CPU) : CPU :=
  if cpu.I = 0 then { cpu with interrupt := Interrupt.irq } else cpu

/-- The per-PPU-cycle mapper hook of StepSeconds (console.go): on a
mapper 4 console, when the dot is 280, the scanline is outside
240..260, and rendering is enabled, reload or decrement the scanline
counter and raise the CPU IRQ on a decrement to zero with the IRQ
enabled. -/
def mapper4PPUHook (console : Console) : Console :=
  match console.mapper with
  | .mapper2 _ => console
  | .mapper4 m =>
    let ppu := console.ppu
    if ppu.Cycle = 280 ∧ (ppu.ScanLine ≤ 239 ∨ 261 ≤ ppu.ScanLine) ∧
        (ppu.flagShowBackground ≠ 0 ∨ ppu.flagShowSprites ≠ 0) then
      if m.counter = 0 then
        { console with mapper := .mapper4 { m with counter := m.reload } }
      else
        let counter1 := m.counter - 1
        let c1 := { console with mapper := .mapper4 { m with counter := counter1 } }
        if counter1 = 0 ∧ m.irqEnable then { c1 with cpu := triggerIRQ c1.cpu }
        else c1
    else console

/-- Sweep unit period adjustment (the sweep closure in StepSeconds,
console.go): subtract delta, and one more on channel 1, when negating;
add delta otherwise.  uint16 arithmetic. -/
def sweep (p : Pulse) : Pulse :=
  let delta := p.timerPeriod >>> p.sweepShift
  if p.sweepNegate then
    let tp1 := sub16 p.timerPeriod delta
    let tp2 := if p.channel = 1 then sub16 tp1 1 else tp1
    { p with timerPeriod := tp2 }
  else { p with timerPeriod := u16 (p.timerPeriod + delta) }

/-- Sweep divider step (the pulseStepSweep closure in StepSeconds,
console.go). -/
def pulseStepSweep (p : Pulse) : Pulse :=
  if p.sweepReload then
    let p1 := if p.sweepEnabled ∧ p.sweepValue = 0 then sweep p else p
    { p1 with sweepValue := p1.sweepPeriod, sweepReload := false }
  else if p.sweepValue > 0 then { p with sweepValue := p.sweepValue - 1 }
  else
    let p1 := if p.sweepEnabled then sweep p else p
    { p1 with sweepValue := p1.sweepPeriod }

/-- The outer cycle-budget loop of StepSeconds (console.go): while the
remaining budget is positive, run one iteration of the body (one CPU
instruction or stall cycle followed by its PPU and APU cycles) and
subtract the CPU cycles it consumed.  The body is a parameter; the
fuel bounds the iteration count and is irrelevant when the budget is
not positive. -/
def stepSecondsLoop (body : Console → Console × Int) : Nat → Int → Console → Console
  | 0, _, console => console
  | fuel + 1, cycles, console =>
    if 0 < cycles then
      let r := body console
      stepSecondsLoop body fuel (cycles - r.2) r.1
    else console

/-- StepSeconds after the seconds-to-cycles conversion (console.go):
cycles is the value of int(CPUFrequency * seconds). -/
def stepSecondsCycles (body : Console → Console × Int) (cycles : Int)
    (console : Console) : Console :=
  stepSecondsLoop body cycles.toNat cycles console

/-! Concrete baseline states used to instantiate the theorems below. -/

def cpu0 : CPU :=
  { Cycles := 0, PC := 0xC000, SP := 0xFD, A := 0, X := 0, Y := 0,
    C := 0, Z := 0, I := 0, D := 0, B := 0, U := 1, V := 0, N := 0,
    interrupt := Interrupt.none, stall := 0 }

def pulse0 : Pulse :=
  { enabled := false, channel := 1, lengthEnabled := false, lengthValue := 0,
    timerPeriod := 0, timerValue := 0, dutyMode := 0, dutyValue := 0,
    sweepReload := false, sweepEnabled := false, sweepNegate := false,
    sweepShift := 0, sweepPeriod := 0, sweepValue := 0,
    envelopeEnabled := false, envelopeLoop := false, envelopeStart := false,
    envelopePeriod := 0, envelopeValue := 0, envelopeVolume := 0,
    constantVolume := 0 }

def triangle0 : Triangle :=
  { enabled := false, lengthEnabled := false, lengthValue := 0,
    timerPeriod := 0, timerValue := 0, dutyValue := 0,
    counterPeriod := 0, counterValue := 0, counterReload := false }

def noise0 : Noise :=
  { enabled := false, mode := false, shiftRegister := 1,
    lengthEnabled := false, lengthValue := 0, timerPeriod := 0,
    timerValue := 0, envelopeEnabled := false, envelopeLoop := false,
    envelopeStart := false, envelopePeriod := 0, envelopeValue := 0,
    envelopeVolume := 0, constantVolume := 0 }

def dmc0 : DMC :=
  { enabled := false, value := 0, sampleAddress := 0, sampleLength := 0,
    currentAddress := 0, currentLength := 0, shiftRegister := 0,
    bitCount := 0, tickPeriod := 0, tickValue := 0, loop := false,
    irq := false }

def apu0 : APU :=
  { pulse1 := pulse0, pulse2 := { pulse0 with channel := 2 },
    triangle := triangle0, noise := noise0, dmc := dmc0, cycle := 0,
    framePeriod := 4, frameValue := 0, frameIRQ := false }

def controller0 : Controller :=
  { buttons := fun _ => false, index := 0, strobe := 0 }

def cartridge0 : Cartridge :=
  { PRG := fun _ => 0, prgLen := 0x8000, CHR := fun _ => 0,
    chrLen := 0x2000, SRAM := fun _ => 0, Mirror := 0 }

def ppu0 : PPU :=
  { Cycle := 0, ScanLine := 0, Frame := 0,
    paletteData := fun _ => 0, nameTableData := fun _ => 0,
    oamData := fun _ => 0, v := 0, t := 0, x := 0, w := 0, f := 0,
    register := 0, nmiOccurred := false, nmiOutput := false,
    nmiPrevious := false, nmiDelay := 0, flagNameTable := 0,
    flagIncrement := 0, flagSpriteTable := 0, flagBackgroundTable := 0,
    flagSpriteSize := 0, flagMasterSlave := 0, flagGrayscale := 0,
    flagShowLeftBackground := 0, flagShowLeftSprites := 0,
    flagShowBackground := 0, flagShowSprites := 0, flagRedTint := 0,
    flagGreenTint := 0, flagBlueTint := 0, flagSpriteZeroHit := 0,
    flagSpriteOverflow := 0, oamAddress := 0, bufferedData := 0 }

def console0 : Console :=
  { cpu := cpu0, apu := apu0, ppu := ppu0, cartridge := cartridge0,
    controller1 := controller0, controller2 := controller0,
    mapper := .mapper2 { prgBanks := 2, prgBank1 := 0, prgBank2 := 1 },
    RAM := fun _ => 0 }

/-! ### C3: sweep-unit period adjustment -/

theorem shiftRight_le_self (n i : Nat) : n >>> i ≤ n := by
  rw [Nat.shiftRight_eq_div_pow]
  exact Nat.div_le_self _ _

/-- C3 (amended).  Let delta be timerPeriod shifted right by
sweepShift.  When the sweep fires with negate set, channel 1 subtracts
delta + 1 from the timer period (not delta - 1) and channel 2
subtracts exactly delta, both modulo 2^16; with negate clear both
channels add delta modulo 2^16. -/
theorem c3_sweep_amount (p : Pulse) (h : p.timerPeriod < 65536) :
    (p.sweepNegate = true →
      (p.channel = 1 →
        (sweep p).timerPeriod =
          (p.timerPeriod + 65535 - (p.timerPeriod >>> p.sweepShift)) % 65536) ∧
      (p.channel ≠ 1 →
        (sweep p).timerPeriod = p.timerPeriod - (p.timerPeriod >>> p.sweepShift))) ∧
    (p.sweepNegate = false →
      (sweep p).timerPeriod = (p.timerPeriod + (p.timerPeriod >>> p.sweepShift)) % 65536) := by
  have hd : p.timerPeriod >>> p.sweepShift ≤ p.timerPeriod :=
    shiftRight_le_self _ _
  constructor
  · intro hneg
    constructor
    · intro hch
      simp only [sweep, hneg, hch, if_true, sub16, u16]
      generalize p.timerPeriod >>> p.sweepShift = d at hd
      omega
    · intro hch
      simp only [sweep, hneg, if_true, sub16, u16, if_neg hch]
      generalize p.timerPeriod >>> p.sweepShift = d at hd
      omega
  · intro hneg
    simp only [sweep, hneg, Bool.false_eq_true, if_false, u16]

/-- A channel-1 pulse about to sweep with negate set: period 100,
shift 2, so delta is 25. -/
def p3c : Pulse :=
  { pulse0 with channel := 1, sweepNegate := true, timerPeriod := 100,
                sweepShift := 2 }

/-- C3 counterexample: the code leaves channel 1 at 100 - 26 = 74,
while subtracting delta - 1 as claimed would leave 100 - 24 = 76. -/
theorem c3_counterexample :
    (sweep p3c).timerPeriod = 74 ∧
    p3c.timerPeriod - ((p3c.timerPeriod >>> p3c.sweepShift) - 1) = 76 := by
  decide

/-- C3 witness: the amended theorem evaluated on the concrete
channel-1 pulse. -/
theorem c3_witness :
    (sweep p3c).timerPeriod =
      (p3c.timerPeriod + 65535 - (p3c.timerPeriod >>> p3c.sweepShift)) % 65536 :=
  ((c3_sweep_amount p3c (by decide)).1 (by decide)).1 (by decide)

/-! ### C4: disabled channels and length counters -/

/-- C4 (amended).  Immediately after any write to 0x4015, every
channel whose enabled flag ended up false has length counter 0.  The
original unrestricted invariant fails: a later length-register write
loads a non-zero length even while the channel is disabled (see the
counterexample). -/
theorem c4_disable_zeroes_length (apu : APU) (value : Nat) :
    ((writeRegisterAPU apu 0x4015 value).pulse1.enabled = false →
      (writeRegisterAPU apu 0x4015 value).pulse1.lengthValue = 0) ∧
    ((writeRegisterAPU apu 0x4015 value).pulse2.enabled = false →
      (writeRegisterAPU apu 0x4015 value).pulse2.lengthValue = 0) ∧
    ((writeRegisterAPU apu 0x4015 value).triangle.enabled = false →
      (writeRegisterAPU apu 0x4015 value).triangle.lengthValue = 0) ∧
    ((writeRegisterAPU apu 0x4015 value).noise.enabled = false →
      (writeRegisterAPU apu 0x4015 value).noise.lengthValue = 0) := by
  refine ⟨?_, ?_, ?_, ?_⟩ <;> intro h
  · by_cases hb : (value &&& 1 == 1: Bool) = true <;>
      simp_all [writeRegisterAPU]
  · by_cases hb : (value &&& 2 == 2: Bool) = true <;>
      simp_all [writeRegisterAPU]
  · by_cases hb : (value &&& 4 == 4: Bool) = true <;>
      simp_all [writeRegisterAPU]
  · by_cases hb : (value &&& 8 == 8: Bool) = true <;>
      simp_all [writeRegisterAPU]

/-- C4 counterexample: pulse 1 is disabled with length 0, yet a write
to 0x4003 loads length 10 (lengthTable entry 0) while the channel
stays disabled, violating the claimed invariant. -/
theorem c4_counterexample :
    (writeRegisterAPU apu0 0x4003 0).pulse1.enabled = false ∧
    (writeRegisterAPU apu0 0x4003 0).pulse1.lengthValue = 10 := by
  decide

/-- C4 witness: the amended theorem evaluated at the all-channels-off
write. -/
theorem c4_witness : (writeRegisterAPU apu0 0x4015 0).pulse1.lengthValue = 0 :=
  (c4_disable_zeroes_length apu0 0).1 (by decide)

/-! ### C5: work-RAM mirroring -/

theorem readByte_ram (c : Console) (a : Nat) (h : a < 0x2000) :
    readByte c a = (c.RAM (a % 0x0800), c) := by
  unfold readByte
  rw [if_pos h]

/-- C5 (amended).  For every address a below 0x0800, CPU bus reads of
a, a + 0x0800, a + 0x1000 and a + 0x1800 all return the RAM byte at a
and leave the console unchanged.  The original range [0x0000, 0x2000)
fails because a + 0x1800 leaves the RAM window once a reaches 0x0800
(see the counterexample). -/
theorem c5_ram_mirroring (c : Console) (a : Nat) (h : a < 0x0800) :
    readByte c a = (c.RAM a, c) ∧
    readByte c (a + 0x0800) = (c.RAM a, c) ∧
    readByte c (a + 0x1000) = (c.RAM a, c) ∧
    readByte c (a + 0x1800) = (c.RAM a, c) := by
  have h0 : a % 0x0800 = a := Nat.mod_eq_of_lt h
  have h1 : (a + 0x0800) % 0x0800 = a := by omega
  have h2 : (a + 0x1000) % 0x0800 = a := by omega
  have h3 : (a + 0x1800) % 0x0800 = a := by omega
  refine ⟨?_, ?_, ?_, ?_⟩
  · rw [readByte_ram c a (by omega), h0]
  · rw [readByte_ram c (a + 0x0800) (by omega), h1]
  · rw [readByte_ram c (a + 0x1000) (by omega), h2]
  · rw [readByte_ram c (a + 0x1800) (by omega), h3]

/-- RAM holding 1 at address 0, used to separate 0x0800 from 0x2000. -/
def c5c : Console := { console0 with RAM := fun i => if i = 0 then 1 else 0 }

/-- C5 counterexample: at a = 0x0800 the claimed partner address
a + 0x1800 = 0x2000 is a PPU register, and the two reads disagree
(1 from RAM, 0 from the register). -/
theorem c5_counterexample :
    (readByte c5c 0x0800).1 = 1 ∧ (readByte c5c (0x0800 + 0x1800)).1 = 0 := by
  decide

/-- C5 witness: the amended theorem evaluated at address 0. -/
theorem c5_witness :
    readByte c5c 0 = (c5c.RAM 0, c5c) ∧ readByte c5c 0x1800 = (c5c.RAM 0, c5c) := by
  have h := c5_ram_mirroring c5c 0 (by decide)
  exact ⟨h.1, h.2.2.2⟩

/-! ### C8: palette aliasing -/

/-- C8.  Writing a byte to PPU palette address 0x3F10, 0x3F14, 0x3F18
or 0x3F1C produces exactly the same console state as writing it to
0x3F00, 0x3F04, 0x3F08 or 0x3F0C, and the aliased addresses read back
the shared entry. -/
theorem c8_palette_alias (c : Console) (value d : Nat)
    (h : d = 0 ∨ d = 4 ∨ d = 8 ∨ d = 12) :
    writePPU c (0x3F10 + d) value = writePPU c (0x3F00 + d) value ∧
    readPPU c (0x3F10 + d) = readPPU c (0x3F00 + d) := by
  rcases h with h | h | h | h <;> subst h <;> exact ⟨rfl, rfl⟩

/-- C8 witness: the alias evaluated at 0x3F14 on the baseline console,
checking the value lands in the shared entry. -/
theorem c8_witness :
    writePPU console0 (0x3F10 + 4) 7 = writePPU console0 (0x3F00 + 4) 7 ∧
    (writePPU console0 (0x3F00 + 4) 7).ppu.paletteData 4 = 7 := by
  refine ⟨(c8_palette_alias console0 7 4 (by decide)).1, ?_⟩
  decide

/-! ### C9: controller strobe and button order -/

/-- The controller state after one serial read. -/
def controllerReadStep (c : Controller) : Controller := (readController c).2

theorem controller_iterate_reads (buttons : Nat → Bool) (j : Nat) (h : j ≤ 255) :
    controllerReadStep^[j] ⟨buttons, 0, 0⟩ = ⟨buttons, j, 0⟩ := by
  induction j with
  | zero => rfl
  | succ n ih =>
    rw [Function.iterate_succ_apply', ih (by omega)]
    simp only [controllerReadStep, readController]
    have : (n + 1) % 256 = n + 1 := Nat.mod_eq_of_lt (by omega)
    simp [this]

/-- C9.  After a strobe-high write followed by a strobe-low write, the
i-th of eight successive reads returns button i in the fixed order A,
B, Select, Start, Up, Down, Left, Right; and while the strobe bit is
high (index pinned at 0) every read returns button A and leaves the
controller unchanged. -/
theorem c9_controller_strobe (buttons : Nat → Bool) (idx st i : Nat) (hi : i < 8) :
    (readController (controllerReadStep^[i]
        (writeController (writeController ⟨buttons, idx, st⟩ 1) 0))).1 =
      (if buttons i then 1 else 0) ∧
    (∀ c : Controller, c.strobe &&& 1 = 1 → c.index = 0 →
      readController c = ((if c.buttons 0 then 1 else 0), c)) := by
  constructor
  · have hw : writeController (writeController ⟨buttons, idx, st⟩ 1) 0 =
        (⟨buttons, 0, 0⟩ : Controller) := by simp [writeController]
    rw [hw, controller_iterate_reads buttons i (by omega)]
    simp [readController, hi]
  · intro c h1 h2
    cases c with
    | mk b ix s =>
      simp only [readController]
      simp_all

/-- C9 witness: the nestest-style scenario with only A pressed reads 1
first, and with only Right pressed reads 1 on the eighth read. -/
theorem c9_witness :
    (readController (controllerReadStep^[0]
        (writeController (writeController ⟨fun i => i == 0, 3, 0⟩ 1) 0))).1 = 1 ∧
    (readController (controllerReadStep^[7]
        (writeController (writeController ⟨fun i => i == 7, 3, 0⟩ 1) 0))).1 = 1 := by
  constructor
  · have h := (c9_controller_strobe (fun i => i == 0) 3 0 0 (by decide)).1
    simpa using h
  · have h := (c9_controller_strobe (fun i => i == 7) 3 0 7 (by decide)).1
    simpa using h

/-! ### C10: non-positive cycle budgets -/

/-- C10.  When the converted cycle budget int(CPUFrequency * seconds)
is not positive, the StepSeconds loop never runs its body, whatever
that body is, and the console is returned unchanged in every field. -/
theorem c10_nonpositive_budget (body : Console → Console × Int) (cycles : Int)
    (console : Console) (h : cycles ≤ 0) :
    stepSecondsCycles body cycles console = console := by
  unfold stepSecondsCycles
  have h0 : cycles.toNat = 0 := Int.toNat_of_nonpos h
  rw [h0]
  rfl

/-- C10 witness: a budget of -3 cycles with a body that would consume
one cycle per iteration leaves the baseline console untouched. -/
theorem c10_witness :
    stepSecondsCycles (fun c => (c, 1)) (-3) console0 = console0 :=
  c10_nonpositive_budget (fun c => (c, 1)) (-3) console0 (by decide)

/-! ### C7: buffered PPUDATA reads -/

theorem ppudata_read_v (c : Console) :
    (readPPURegister c 0x2007).2.ppu.v =
      (c.ppu.v + (if c.ppu.flagIncrement = 0 then 1 else 32)) % 65536 ∧
    (readPPURegister c 0x2007).2.ppu.flagIncrement = c.ppu.flagIncrement := by
  unfold readPPURegister
  norm_num
  by_cases hv : c.ppu.v % 0x4000 < 0x3F00 <;>
    by_cases hinc : c.ppu.flagIncrement = 0 <;>
      simp [hv, hinc, incrementV, u16]

/-- C7.  A CPU read of PPUDATA returns the buffered latch and refills
it from the PPU bus at v when v mod 0x4000 is below the palette
window, and otherwise returns the PPU bus value at v directly while
refilling the latch from v - 0x1000; in both cases v then advances by
1 or 32 according to the increment flag, so two successive reads
advance v by 2 or 64 (mod 2^16). -/
theorem c7_ppudata_read (c : Console) :
    (c.ppu.v % 0x4000 < 0x3F00 →
      (readPPURegister c 0x2007).1 = c.ppu.bufferedData ∧
      (readPPURegister c 0x2007).2.ppu.bufferedData = readPPU c c.ppu.v) ∧
    (¬ c.ppu.v % 0x4000 < 0x3F00 →
      (readPPURegister c 0x2007).1 = readPPU c c.ppu.v ∧
      (readPPURegister c 0x2007).2.ppu.bufferedData =
        readPPU c (sub16 c.ppu.v 0x1000)) ∧
    (readPPURegister c 0x2007).2.ppu.v =
      (c.ppu.v + (if c.ppu.flagIncrement = 0 then 1 else 32)) % 65536 ∧
    (readPPURegister (readPPURegister c 0x2007).2 0x2007).2.ppu.v =
      (c.ppu.v + 2 * (if c.ppu.flagIncrement = 0 then 1 else 32)) % 65536 := by
  refine ⟨?_, ?_, (ppudata_read_v c).1, ?_⟩
  · intro hv
    unfold readPPURegister
    norm_num
    by_cases hinc : c.ppu.flagIncrement = 0 <;> simp [hv, hinc, incrementV]
  · intro hv
    unfold readPPURegister
    norm_num
    by_cases hinc : c.ppu.flagIncrement = 0 <;> simp [hv, hinc, incrementV]
  · have h1 := ppudata_read_v c
    have h2 := ppudata_read_v (readPPURegister c 0x2007).2
    rw [h2.1, h1.1, h1.2]
    by_cases hinc : c.ppu.flagIncrement = 0 <;> simp [hinc]

/-- A console whose VRAM address sits in a nametable, with a non-zero
buffered latch and a marked nametable byte. -/
def c7c : Console :=
  { console0 with ppu := { ppu0 with v := 0x2005, bufferedData := 9 },
                  cartridge := { cartridge0 with Mirror := MirrorVertical } }

/-- C7 witness: on the concrete console the read returns the latch, v
advances by 1, and two reads advance it by 2. -/
theorem c7_witness :
    (readPPURegister c7c 0x2007).1 = 9 ∧
    (readPPURegister c7c 0x2007).2.ppu.v = 0x2006 ∧
    (readPPURegister (readPPURegister c7c 0x2007).2 0x2007).2.ppu.v = 0x2007 := by
  have h := c7_ppudata_read c7c
  refine ⟨?_, ?_, ?_⟩
  · have h1 := (h.1 (by decide)).1
    simpa using h1
  · have h2 := h.2.2.1
    simpa using h2
  · have h3 := h.2.2.2
    simpa using h3

/-! ### C2: the MMC3 scanline counter -/

/-- The console c with the mapper 4 scanline counter forced to n. -/
def withCounter (c : Console) (m : Mapper4) (n : Nat) : Console :=
  { c with mapper := .mapper4 { m with counter := n } }

/-- C2 (amended).  With the mapper 4 counter starting at 0, reload R
at least 1, IRQ enabled, rendering on and the I flag clear, no IRQ is
pending after any of the first R qualifying dot-280 ticks, and the
(R+1)-th qualifying tick triggers the CPU IRQ.  The original claim
fails at R = 0: the first tick then merely reloads 0 and never fires
(see the counterexample). -/
theorem c2_mmc3_scanline_irq (c : Console) (m : Mapper4) (R : Nat)
    (hR : 1 ≤ R)
    (hm : c.mapper = Mapper.mapper4 m)
    (hc0 : m.counter = 0) (hrel : m.reload = R) (hen : m.irqEnable = true)
    (hI : c.cpu.I = 0) (hpend : c.cpu.interrupt = Interrupt.none)
    (hdot : c.ppu.Cycle = 280)
    (hsl : c.ppu.ScanLine ≤ 239 ∨ 261 ≤ c.ppu.ScanLine)
    (hrender : c.ppu.flagShowBackground ≠ 0 ∨ c.ppu.flagShowSprites ≠ 0) :
    (∀ k, k ≤ R → (mapper4PPUHook^[k] c).cpu.interrupt = Interrupt.none) ∧
    (mapper4PPUHook^[R + 1] c).cpu.interrupt = Interrupt.irq := by
  have hq : c.ppu.Cycle = 280 ∧ (c.ppu.ScanLine ≤ 239 ∨ 261 ≤ c.ppu.ScanLine) ∧
      (c.ppu.flagShowBackground ≠ 0 ∨ c.ppu.flagShowSprites ≠ 0) :=
    ⟨hdot, hsl, hrender⟩
  have hookA : mapper4PPUHook c = withCounter c m R := by
    simp only [mapper4PPUHook, hm]
    rw [if_pos hq, if_pos hc0, withCounter, hrel]
  have hookB : ∀ n, 2 ≤ n →
      mapper4PPUHook (withCounter c m n) = withCounter c m (n - 1) := by
    intro n hn
    simp only [mapper4PPUHook, withCounter]
    rw [if_pos hq, if_neg (by omega), if_neg (by omega)]
  have inv : ∀ j, 1 ≤ j → j ≤ R → mapper4PPUHook^[j] c = withCounter c m (R + 1 - j) := by
    intro j
    induction j with
    | zero => omega
    | succ n ih =>
      intro _ hle
      rcases Nat.eq_or_lt_of_le (show 1 ≤ n + 1 from by omega) with h1 | h1
      · rw [show n = 0 from by omega]
        simpa [Function.iterate_one] using hookA
      · have harith : R + 1 - n - 1 = R + 1 - (n + 1) := by omega
        rw [Function.iterate_succ_apply', ih (by omega) (by omega),
            hookB (R + 1 - n) (by omega), harith]
  constructor
  · intro k hk
    rcases Nat.eq_zero_or_pos k with hk0 | hk1
    · subst hk0
      simpa using hpend
    · rw [inv k hk1 hk]
      exact hpend
  · rw [Function.iterate_succ_apply', inv R (by omega) (by omega),
        show R + 1 - R = 1 from by omega]
    simp only [mapper4PPUHook, withCounter]
    rw [if_pos hq, if_neg (show ¬((1 : Nat) = 0) from by omega),
        if_pos (show True ∧ m.irqEnable = true from ⟨trivial, hen⟩)]
    simp [triggerIRQ, hI]

/-- A mapper 4 register file with reload 0, counter 0 and the IRQ
enabled. -/
def m2c : Mapper4 :=
  { register := 0, registers := fun _ => 0, prgMode := 0, chrMode := 0,
    prgOffsets := fun _ => 0, chrOffsets := fun _ => 0,
    reload := 0, counter := 0, irqEnable := true }

/-- A mapper 4 console sitting on a qualifying tick (dot 280, visible
scanline, background rendering on) with the I flag clear. -/
def c2c : Console :=
  { console0 with
    mapper := .mapper4 m2c,
    ppu := { ppu0 with Cycle := 280, ScanLine := 100, flagShowBackground := 1 } }

/-- C2 counterexample: with reload R = 0 the claimed (R+1)-th = first
qualifying tick does not trigger the IRQ: the counter merely reloads
zero. -/
theorem c2_counterexample :
    (mapper4PPUHook c2c).cpu.interrupt = Interrupt.none := by
  decide

/-- C2 witness: with reload 1 the second qualifying tick fires and the
first does not. -/
theorem c2_witness :
    (mapper4PPUHook^[1] (withCounter c2c { m2c with reload := 1 } 0)).cpu.interrupt
      = Interrupt.none ∧
    (mapper4PPUHook^[2] (withCounter c2c { m2c with reload := 1 } 0)).cpu.interrupt
      = Interrupt.irq := by
  have h := c2_mmc3_scanline_irq (withCounter c2c { m2c with reload := 1 } 0)
    { m2c with reload := 1, counter := 0 } 1 (by omega) rfl rfl rfl rfl rfl rfl rfl
    (Or.inl (by decide)) (Or.inl (by decide))
  exact ⟨h.1 1 (by omega), h.2⟩

/-! ### C1: NMI and IRQ servicing -/

set_option maxRecDepth 10000 in
theorem lor256 : ∀ s, s < 256 → 256 ||| s = 256 + s := by decide

theorem push_eq (c : Console) (value : Nat) (h : c.cpu.SP < 256) :
    push c value =
      { c with RAM := updf c.RAM (0x100 + c.cpu.SP) value,
               cpu := { c.cpu with SP := (c.cpu.SP + 255) % 256 } } := by
  unfold push writeByte sub8
  rw [lor256 c.cpu.SP h]
  rw [if_pos (show 0x100 + c.cpu.SP < 0x2000 by omega)]
  rw [Nat.mod_eq_of_lt (show 0x100 + c.cpu.SP < 0x0800 by omega)]

theorem readByte_mapperRead (c : Console) (a : Nat) (h : 0x6000 ≤ a) :
    readByte c a = (readMapper c.mapper c.cartridge a, c) := by
  unfold readByte
  rw [if_neg (by omega), if_neg (by omega), if_neg (by omega), if_neg (by omega),
      if_neg (by omega), if_neg (by omega), if_neg (by omega)]

set_option maxRecDepth 4000 in
/-- The common body of NMI and IRQ servicing: push PC (high, low),
push the php byte, then fetch the 16-bit vector, which lies in mapper
space and is unaffected by the stack writes. -/
theorem interruptPushShape (c : Console) (vec : Nat) (hSP : c.cpu.SP < 256)
    (h6 : 0x6000 ≤ vec) (hv : vec + 1 < 65536) :
    read16 (php (push16 c c.cpu.PC)) vec =
      ((readMapper c.mapper c.cartridge (vec + 1)) <<< 8 |||
        readMapper c.mapper c.cartridge vec,
       { c with
         RAM := updf (updf (updf c.RAM (0x100 + c.cpu.SP) (u8 (c.cpu.PC >>> 8)))
             (0x100 + (c.cpu.SP + 255) % 256) (c.cpu.PC &&& 0xFF))
             (0x100 + ((c.cpu.SP + 255) % 256 + 255) % 256)
             (cpuStatusByte c.cpu ||| 0x10),
         cpu := { c.cpu with SP := (((c.cpu.SP + 255) % 256 + 255) % 256 + 255) % 256 } }) := by
  simp only [push16, php, read16]
  rw [push_eq c _ hSP]
  rw [push_eq _ (c.cpu.PC &&& 0xFF) (by simp; omega)]
  rw [push_eq _ _ (by simp; omega)]
  rw [readByte_mapperRead _ _ h6]
  rw [show u16 (vec + 1) = vec + 1 from Nat.mod_eq_of_lt hv]
  rw [readByte_mapperRead _ _ (by omega)]
  rfl

/-- C1 (amended).  Servicing a pending NMI pushes the 16-bit PC (high
byte, then low byte), then pushes the status flags ORed with 0x10 --
so the pushed byte has B = 1, not B = 0, while bit 5 carries the
current U flag -- sets I to 1, loads PC from the little-endian vector
at 0xFFFA, and adds 7 to the cycle counter; servicing a pending IRQ
does the same from vector 0xFFFE.  In both cases the pending interrupt
is cleared. -/
theorem c1_interrupt_service (c : Console) (hSP : c.cpu.SP < 256) :
    (c.cpu.interrupt = Interrupt.nmi →
      (serviceInterrupt c).RAM (0x100 + c.cpu.SP) = u8 (c.cpu.PC >>> 8) ∧
      (serviceInterrupt c).RAM (0x100 + (c.cpu.SP + 255) % 256) = c.cpu.PC &&& 0xFF ∧
      (serviceInterrupt c).RAM (0x100 + (c.cpu.SP + 254) % 256) =
        (cpuStatusByte c.cpu ||| 0x10) ∧
      Nat.testBit ((serviceInterrupt c).RAM (0x100 + (c.cpu.SP + 254) % 256)) 4 = true ∧
      (serviceInterrupt c).cpu.SP = (c.cpu.SP + 253) % 256 ∧
      (serviceInterrupt c).cpu.PC =
        (readMapper c.mapper c.cartridge 0xFFFB <<< 8) |||
          readMapper c.mapper c.cartridge 0xFFFA ∧
      (serviceInterrupt c).cpu.I = 1 ∧
      (serviceInterrupt c).cpu.Cycles = c.cpu.Cycles + 7 ∧
      (serviceInterrupt c).cpu.interrupt = Interrupt.none) ∧
    (c.cpu.interrupt = Interrupt.irq →
      (serviceInterrupt c).RAM (0x100 + c.cpu.SP) = u8 (c.cpu.PC >>> 8) ∧
      (serviceInterrupt c).RAM (0x100 + (c.cpu.SP + 255) % 256) = c.cpu.PC &&& 0xFF ∧
      (serviceInterrupt c).RAM (0x100 + (c.cpu.SP + 254) % 256) =
        (cpuStatusByte c.cpu ||| 0x10) ∧
      (serviceInterrupt c).cpu.SP = (c.cpu.SP + 253) % 256 ∧
      (serviceInterrupt c).cpu.PC =
        (readMapper c.mapper c.cartridge 0xFFFF <<< 8) |||
          readMapper c.mapper c.cartridge 0xFFFE ∧
      (serviceInterrupt c).cpu.I = 1 ∧
      (serviceInterrupt c).cpu.Cycles = c.cpu.Cycles + 7 ∧
      (serviceInterrupt c).cpu.interrupt = Interrupt.none) := by
  have hb16 : Nat.testBit 16 4 = true := by decide
  constructor
  · intro hI
    have hsvc : serviceInterrupt c =
        { (read16 (php (push16 c c.cpu.PC)) 0xFFFA).2 with
          cpu := { (read16 (php (push16 c c.cpu.PC)) 0xFFFA).2.cpu with
                   PC := (read16 (php (push16 c c.cpu.PC)) 0xFFFA).1, I := 1,
                   Cycles := (read16 (php (push16 c c.cpu.PC)) 0xFFFA).2.cpu.Cycles + 7,
                   interrupt := Interrupt.none } } := by
      simp only [serviceInterrupt, hI]
    rw [hsvc, interruptPushShape c 0xFFFA hSP (by omega) (by omega)]
    refine ⟨?_, ?_, ?_, ?_, ?_, rfl, rfl, rfl, rfl⟩
    · simp only [updf]
      rw [if_neg (by omega), if_neg (by omega)]
      simp
    · simp only [updf]
      rw [if_neg (by omega)]
      simp
    · simp only [updf]
      rw [if_pos (by omega)]
    · simp only [updf]
      rw [if_pos (by omega)]
      simp [Nat.testBit_or, hb16]
    · dsimp only
      omega
  · intro hI
    have hsvc : serviceInterrupt c =
        { (read16 (php (push16 c c.cpu.PC)) 0xFFFE).2 with
          cpu := { (read16 (php (push16 c c.cpu.PC)) 0xFFFE).2.cpu with
                   PC := (read16 (php (push16 c c.cpu.PC)) 0xFFFE).1, I := 1,
                   Cycles := (read16 (php (push16 c c.cpu.PC)) 0xFFFE).2.cpu.Cycles + 7,
                   interrupt := Interrupt.none } } := by
      simp only [serviceInterrupt, hI]
    rw [hsvc, interruptPushShape c 0xFFFE hSP (by omega) (by omega)]
    refine ⟨?_, ?_, ?_, ?_, rfl, rfl, rfl, rfl⟩
    · simp only [updf]
      rw [if_neg (by omega), if_neg (by omega)]
      simp
    · simp only [updf]
      rw [if_neg (by omega)]
      simp
    · simp only [updf]
      rw [if_pos (by omega)]
    · dsimp only
      omega

/-- A console with a pending NMI, B flag 0 and U flag 1 (the post-reset
flag state), SP = 0xFD. -/
def c1c : Console := { console0 with cpu := { cpu0 with interrupt := Interrupt.nmi } }

/-- C1 counterexample: servicing the NMI pushes the status byte 0x30
(bit 4, the B bit, set by the OR with 0x10) although the claim demands
a pushed byte with B = 0, which here would be 0x20. -/
theorem c1_counterexample :
    (serviceInterrupt c1c).RAM 0x1FB = 0x30 ∧
    Nat.testBit ((serviceInterrupt c1c).RAM 0x1FB) 4 = true := by
  decide

/-- C1 witness: the amended theorem evaluated on the pending-NMI
console. -/
theorem c1_witness :
    (serviceInterrupt c1c).cpu.I = 1 ∧
    (serviceInterrupt c1c).cpu.Cycles = c1c.cpu.Cycles + 7 ∧
    (serviceInterrupt c1c).cpu.PC =
      (readMapper c1c.mapper c1c.cartridge 0xFFFB <<< 8) |||
        readMapper c1c.mapper c1c.cartridge 0xFFFA ∧
    (serviceInterrupt c1c).cpu.interrupt = Interrupt.none := by
  have h := (c1_interrupt_service c1c (by decide)).1 rfl
  exact ⟨h.2.2.2.2.2.2.1, h.2.2.2.2.2.2.2.1, h.2.2.2.2.2.1, h.2.2.2.2.2.2.2.2⟩

/-! ### C6: OAM DMA -/

/-- CPU addresses whose reads are free of side effects: RAM and
mapper/cartridge space. -/
def dmaSafe (a : Nat) : Prop := a < 0x2000 ∨ 0x6000 ≤ a

theorem readByte_safe_val (c c2 : Console) (a : Nat) (h : dmaSafe a)
    (hRAM : c2.RAM = c.RAM) (hmap : c2.mapper = c.mapper)
    (hcart : c2.cartridge = c.cartridge) :
    (readByte c2 a).1 = (readByte c a).1 ∧ (readByte c2 a).2 = c2 ∧
    (readByte c a).2 = c := by
  rcases h with h | h
  · rw [readByte_ram c a h, readByte_ram c2 a h]
    exact ⟨by rw [hRAM], rfl, rfl⟩
  · rw [readByte_mapperRead c a h, readByte_mapperRead c2 a h]
    exact ⟨by rw [hmap, hcart], rfl, rfl⟩

set_option maxRecDepth 8000 in
theorem readPPURegister_frame (c : Console) (a : Nat) :
    (readPPURegister c a).2.cpu = c.cpu ∧ (readPPURegister c a).2.RAM = c.RAM ∧
    (readPPURegister c a).2.mapper = c.mapper ∧
    (readPPURegister c a).2.cartridge = c.cartridge ∧
    (readPPURegister c a).2.ppu.oamAddress = c.ppu.oamAddress ∧
    (readPPURegister c a).2.ppu.oamData = c.ppu.oamData := by
  refine ⟨?_, ?_, ?_, ?_, ?_, ?_⟩ <;>
    (unfold readPPURegister nmiChangePPU incrementV; dsimp only; split_ifs <;> rfl)

theorem readByte_frame (c : Console) (a : Nat) :
    (readByte c a).2.cpu = c.cpu ∧ (readByte c a).2.RAM = c.RAM ∧
    (readByte c a).2.mapper = c.mapper ∧
    (readByte c a).2.cartridge = c.cartridge ∧
    (readByte c a).2.ppu.oamAddress = c.ppu.oamAddress ∧
    (readByte c a).2.ppu.oamData = c.ppu.oamData := by
  refine ⟨?_, ?_, ?_, ?_, ?_, ?_⟩ <;>
    unfold readByte <;> split_ifs <;>
      first
        | rfl
        | exact (readPPURegister_frame c _).1
        | exact (readPPURegister_frame c _).2.1
        | exact (readPPURegister_frame c _).2.2.1
        | exact (readPPURegister_frame c _).2.2.2.1
        | exact (readPPURegister_frame c _).2.2.2.2.1
        | exact (readPPURegister_frame c _).2.2.2.2.2

/-- One DMA iteration: the CPU, RAM, mapper and cartridge are left
alone; the OAM address advances by one as a byte; the OAM byte at the
old address becomes the bus read's value. -/
theorem dmaStep_frame (c : Console) (b : Nat) :
    (dmaStep c b).cpu = c.cpu ∧ (dmaStep c b).RAM = c.RAM ∧
    (dmaStep c b).mapper = c.mapper ∧ (dmaStep c b).cartridge = c.cartridge ∧
    (dmaStep c b).ppu.oamAddress = (c.ppu.oamAddress + 1) % 256 ∧
    (dmaStep c b).ppu.oamData =
      updf c.ppu.oamData (c.ppu.oamAddress % 256) (readByte c b).1 := by
  have h := readByte_frame c b
  unfold dmaStep
  refine ⟨h.1, h.2.1, h.2.2.1, h.2.2.2.1, ?_, ?_⟩
  · dsimp only
    rw [h.2.2.2.2.1]
  · dsimp only
    rw [h.2.2.2.2.2, h.2.2.2.2.1]

/-- The DMA loop never touches the CPU, the RAM, the mapper or the
cartridge, whatever the source page. -/
theorem dmaLoop_cpu_frame : ∀ (n : Nat) (c : Console) (b : Nat),
    (dmaLoop n c b).cpu = c.cpu ∧ (dmaLoop n c b).RAM = c.RAM ∧
    (dmaLoop n c b).mapper = c.mapper ∧ (dmaLoop n c b).cartridge = c.cartridge := by
  intro n
  induction n with
  | zero => exact fun c b => ⟨rfl, rfl, rfl, rfl⟩
  | succ n ih =>
    intro c b
    have hs := dmaStep_frame c b
    have hi := ih (dmaStep c b) (u16 (b + 1))
    simp only [dmaLoop]
    exact ⟨hi.1.trans hs.1, hi.2.1.trans hs.2.1, hi.2.2.1.trans hs.2.2.1,
           hi.2.2.2.trans hs.2.2.2.1⟩

/-- After n DMA iterations the OAM address has advanced by n, as a
byte. -/
theorem dmaLoop_oamAddress : ∀ (n : Nat) (c : Console) (b : Nat),
    c.ppu.oamAddress < 256 →
    (dmaLoop n c b).ppu.oamAddress = (c.ppu.oamAddress + n) % 256 := by
  intro n
  induction n with
  | zero =>
    intro c b h
    simp only [dmaLoop]
    omega
  | succ n ih =>
    intro c b h
    simp only [dmaLoop]
    rw [ih (dmaStep c b) (u16 (b + 1))
        (by rw [(dmaStep_frame c b).2.2.2.2.1]; omega)]
    rw [(dmaStep_frame c b).2.2.2.2.1]
    omega

/-- OAM entries outside the indices written by the loop are
preserved. -/
theorem dmaLoop_untouched : ∀ (n : Nat) (c : Console) (b idx : Nat),
    n ≤ 256 → b < 65536 →
    (∀ j, j < n → dmaSafe ((b + j) % 65536)) →
    c.ppu.oamAddress < 256 →
    (∀ j, j < n → (c.ppu.oamAddress + j) % 256 ≠ idx) →
    (dmaLoop n c b).ppu.oamData idx = c.ppu.oamData idx := by
  intro n
  induction n with
  | zero => intro c b idx _ _ _ _ _; rfl
  | succ n ih =>
    intro c b idx hn hb hsafe hoam hidx
    simp only [dmaLoop]
    rw [ih (dmaStep c b) (u16 (b + 1)) idx (by omega) (by simp [u16]; omega)
        (by intro j hj
            have hsh := hsafe (j + 1) (by omega)
            have harith : (u16 (b + 1) + j) % 65536 = (b + (j + 1)) % 65536 := by
              simp [u16]; omega
            rw [harith]; exact hsh)
        (by rw [(dmaStep_frame c b).2.2.2.2.1]; omega)
        (by intro j hj
            have hix := hidx (j + 1) (by omega)
            have harith : ((dmaStep c b).ppu.oamAddress + j) % 256 =
                (c.ppu.oamAddress + (j + 1)) % 256 := by
              rw [(dmaStep_frame c b).2.2.2.2.1]; omega
            rw [harith]; exact hix)]
    rw [(dmaStep_frame c b).2.2.2.2.2]
    simp only [updf]
    rw [if_neg]
    have h0 := hidx 0 (by omega)
    omega

/-- The i-th DMA iteration stores the byte the CPU bus read of the
i-th source address returns (computed on the loop's entry state, which
is legitimate because reads from safe pages neither change state nor
depend on the OAM), at OAM index oamAddress + i mod 256. -/
theorem dmaLoop_written : ∀ (n : Nat) (c : Console) (b i : Nat),
    n ≤ 256 → i < n → b < 65536 →
    (∀ j, j < n → dmaSafe ((b + j) % 65536)) →
    c.ppu.oamAddress < 256 →
    (dmaLoop n c b).ppu.oamData ((c.ppu.oamAddress + i) % 256) =
      (readByte c ((b + i) % 65536)).1 := by
  intro n
  induction n with
  | zero => intro c b i _ hi; omega
  | succ n ih =>
    intro c b i hn hi hb hsafe hoam
    simp only [dmaLoop]
    rcases Nat.eq_zero_or_pos i with hi0 | hip
    · subst hi0
      rw [dmaLoop_untouched n (dmaStep c b) (u16 (b + 1)) _ (by omega)
          (by simp [u16]; omega)
          (by intro j hj
              have hsh := hsafe (j + 1) (by omega)
              have harith : (u16 (b + 1) + j) % 65536 = (b + (j + 1)) % 65536 := by
                simp [u16]; omega
              rw [harith]; exact hsh)
          (by rw [(dmaStep_frame c b).2.2.2.2.1]; omega)
          (by intro j hj
              rw [(dmaStep_frame c b).2.2.2.2.1]
              omega)]
      rw [(dmaStep_frame c b).2.2.2.2.2]
      simp only [updf]
      rw [if_pos (by omega), Nat.add_zero, Nat.mod_eq_of_lt hb]
    · obtain ⟨k, rfl⟩ : ∃ k, i = k + 1 := ⟨i - 1, by omega⟩
      have hoam2 : (dmaStep c b).ppu.oamAddress < 256 := by
        rw [(dmaStep_frame c b).2.2.2.2.1]; omega
      have hk := ih (dmaStep c b) (u16 (b + 1)) k (by omega) (by omega)
        (by simp [u16]; omega)
        (by intro j hj
            have hsh := hsafe (j + 1) (by omega)
            have harith : (u16 (b + 1) + j) % 65536 = (b + (j + 1)) % 65536 := by
              simp [u16]; omega
            rw [harith]; exact hsh)
        hoam2
      rw [(dmaStep_frame c b).2.2.2.2.1] at hk
      have hidx : ((c.ppu.oamAddress + 1) % 256 + k) % 256 =
          (c.ppu.oamAddress + (k + 1)) % 256 := by omega
      have haddr : (u16 (b + 1) + k) % 65536 = (b + (k + 1)) % 65536 := by
        simp [u16]; omega
      rw [hidx, haddr] at hk
      rw [hk]
      exact (readByte_safe_val c (dmaStep c b) ((b + (k + 1)) % 65536)
        (hsafe (k + 1) (by omega)) (dmaStep_frame c b).2.1
        (dmaStep_frame c b).2.2.1 (dmaStep_frame c b).2.2.2.1).1

set_option maxRecDepth 4000 in
/-- The 0x4014 arm of writeRegisterPPU, spelled out: 256 DMA
iterations from source address value << 8, then the 513/514 cycle
stall. -/
theorem writeRegisterPPU_4014 (c : Console) (value : Nat) :
    writeRegisterPPU c 0x4014 value =
      (let c1 := dmaLoop 256
          { c with ppu := { c.ppu with register := value } } (u16 (value <<< 8))
       { c1 with cpu := { c1.cpu with stall :=
          if c1.cpu.Cycles % 2 = 1 then c1.cpu.stall + 513 + 1
          else c1.cpu.stall + 513 } }) := by
  rfl

set_option maxRecDepth 4000 in
/-- C6.  A CPU write of value to 0x4014 adds 513 CPU stall cycles,
plus one more when the CPU cycle count at the time of the write is
odd, and copies 256 bytes into OAM starting at the current oam_addr,
wrapping the OAM index as a byte.  When the source page lies in RAM or
in cartridge space (value < 0x20 or value >= 0x60, where CPU bus reads
are pure), the byte stored at OAM index oam_addr + i is exactly the
CPU bus read of address (value << 8) + i on the pre-write console, the
OAM address returns to its starting value, and the RAM is unchanged;
for source pages in the register window the stored bytes are the
results of the 256 sequential port reads, which have side effects. -/
theorem c6_oam_dma (c : Console) (value : Nat) (hval : value < 256)
    (hoam : c.ppu.oamAddress < 256) :
    (writeRegisterPPU c 0x4014 value).cpu.stall =
      c.cpu.stall + 513 + (if c.cpu.Cycles % 2 = 1 then 1 else 0) ∧
    (writeRegisterPPU c 0x4014 value).cpu.Cycles = c.cpu.Cycles ∧
    ((value < 0x20 ∨ 0x60 ≤ value) →
      (∀ i, i < 256 →
        (writeRegisterPPU c 0x4014 value).ppu.oamData ((c.ppu.oamAddress + i) % 256) =
          (readByte c (value * 256 + i)).1) ∧
      (writeRegisterPPU c 0x4014 value).ppu.oamAddress = c.ppu.oamAddress ∧
      (writeRegisterPPU c 0x4014 value).RAM = c.RAM) := by
  have hshift : u16 (value <<< 8) = value * 256 := by
    rw [Nat.shiftLeft_eq]
    norm_num [u16]
    omega
  rw [writeRegisterPPU_4014, hshift]
  have hframe := dmaLoop_cpu_frame 256
    { c with ppu := { c.ppu with register := value } } (value * 256)
  refine ⟨?_, ?_, ?_⟩
  · dsimp only
    rw [hframe.1]
    have hcpu : ({ c with ppu := { c.ppu with register := value } } : Console).cpu
        = c.cpu := rfl
    rw [hcpu]
    split_ifs <;> rfl
  · dsimp only
    rw [hframe.1]
  · intro hpage
    have hsafe : ∀ j, j < 256 → dmaSafe ((value * 256 + j) % 65536) := by
      intro j hj
      have hlt : value * 256 + j < 65536 := by omega
      rw [Nat.mod_eq_of_lt hlt]
      rcases hpage with h | h
      · left; omega
      · right; omega
    refine ⟨?_, ?_, ?_⟩
    · intro i hi
      have hw := dmaLoop_written 256
        { c with ppu := { c.ppu with register := value } } (value * 256) i
        (by omega) hi (by omega) hsafe (by dsimp only; omega)
      have harr : (value * 256 + i) % 65536 = value * 256 + i := by
        apply Nat.mod_eq_of_lt
        omega
      rw [harr] at hw
      have hval2 := (readByte_safe_val c
        { c with ppu := { c.ppu with register := value } } (value * 256 + i)
        (by have hs := hsafe i hi; rwa [harr] at hs) rfl rfl rfl).1
      dsimp only
      rw [hw, hval2]
    · dsimp only
      rw [dmaLoop_oamAddress 256 _ (value * 256) (by dsimp only; omega)]
      dsimp only
      omega
    · dsimp only
      rw [hframe.2.1]

/-- C6 witness: DMA from RAM page 2 on the baseline console adds
exactly 513 stall cycles (cycle count 0 is even) and leaves the OAM
address at 0. -/
theorem c6_witness :
    (writeRegisterPPU console0 0x4014 2).cpu.stall = 513 ∧
    (writeRegisterPPU console0 0x4014 2).ppu.oamAddress = 0 := by
  have h := c6_oam_dma console0 2 (by decide) (by decide)
  have hcopy := h.2.2 (by left; decide)
  constructor
  · have h1 := h.1
    simpa using h1
  · have h2 := hcopy.2.1
    simpa using h2

end NES
